import Mathlib

/-!
Shallow embedding of the account-registration transaction and the
login-abuse defense subsystem of the Rachel back-end
(`Facades/anonymous_facade.py`, `Rachel/DAL.py`, `Rachel/utils.py`,
`Rachel/signals.py`, `Rachel/models.py`), together with theorems that
settle the frozen claims about it.

Machine-level conventions of the embedding:
* Django model rows become Lean structures; the database becomes lists of
  rows inside a `DB` structure; a Django queryset filter becomes
  `List.filter`.
* `DAL.create`, `DAL.filter` and `DAL.get_by_field` in `Rachel/DAL.py`
  catch every exception, log it, and return `None` / an empty queryset /
  `None` respectively.  The embedding mirrors that: a rejected write is an
  `Option` that is `none`, a failing filter is `[]`, and no exception
  escapes the data-access layer.
* Writes that the backing store may reject (the uniqueness race, a
  constraint violation) are driven by a `StoreOracle` of booleans, one per
  store write that `register_user` can actually reach: the identity row
  and the activity row.  The profile insert never reaches the store at
  all — `common_fields` carries the `languages_spoken` queryset, and
  passing a many-to-many value to `objects.create` raises `TypeError`
  before any SQL, which `DAL.create` swallows into `None` — so no oracle
  bit exists for it.
* Exceptions that do escape (Django `ValidationError`, the blanket
  `Exception` re-raise) abort the enclosing `transaction.atomic()` block,
  so those paths return the caller's original `DB` unchanged.
-/

namespace Rachel

/-- Stand-in for Django's salted slow hash: `set_password` stores a value
from which the clear password is recoverable only by the verifier.  The tag
keeps hashed and clear passwords from colliding. -/
def hashPassword (p : String) : String := "pbkdf2_sha256$" ++ p

/-- A row of `django.contrib.auth.models.User` (the IdentityStore record):
username, email, hashed password and the active flag.  Django's `User`
model declares `is_active` with default `True`; `DAL.create` instantiates
`User(**kwargs)` without touching `is_active`, so a freshly created row
carries that default unless the caller passes the field explicitly. -/
structure User where
  username : String
  email : String
  password : String
  isActive : Bool
deriving Repr, DecidableEq

/-- The three role variants of a profile row. -/
inductive Role where
  | civilian
  | supportProvider
  | administrator
deriving Repr, DecidableEq

/-- A profile row (`Civilian` / `SupportProvider` / `Administrator` in
`Rachel/models.py`, all inheriting `CommonUserProfile`): the common field
set, the role tag, the role-specific payload, and the many-to-many
relation ids. -/
structure Profile where
  role : Role
  username : String
  identificationNumber : String
  idType : String
  countryOfIssueId : Nat
  cityId : Nat
  countryId : Nat
  phoneNumber : String
  termsAccepted : Bool
  address : String
  gender : Option String
  lookingToEarn : Option Bool
  languageIds : List Nat
  intentionIds : List Nat
  categoryIds : List Nat
deriving Repr, DecidableEq

/-- A `UserActivity` row: user, activity type and source address. -/
structure Activity where
  username : String
  activityType : String
  ipAddress : String
deriving Repr, DecidableEq

/-- A `PasswordResetRequest` row (`Rachel/models.py`): user link,
creation timestamp (`auto_now_add`), the used flag and the request
counter.  The model declares no token column. -/
structure ResetRecord where
  username : String
  timestamp : Nat
  tokenUsed : Bool
  requestCount : Nat
deriving Repr, DecidableEq

/-- The durable store: identities, profiles, the activity ledger and the
password-reset records. -/
structure DB where
  users : List User
  profiles : List Profile
  activities : List Activity
  resetRequests : List ResetRecord
deriving Repr, DecidableEq

/-- `DAL.get_by_field(User, username=...)`: `objects.get` returns the sole
match; both `DoesNotExist` and `MultipleObjectsReturned` are caught and
turned into `None`. -/
def getUserByUsername (db : DB) (username : String) : Option User :=
  match db.users.filter (fun u => u.username = username) with
  | [u] => some u
  | _ => none

/-- `DAL.get_by_field(User, email=...)`, same exactly-one contract. -/
def getUserByEmail (db : DB) (email : String) : Option User :=
  match db.users.filter (fun u => u.email = email) with
  | [u] => some u
  | _ => none

/-- `DAL.filter(User, phone_number=...)` as called by
`AnonymousFacade.register_user`: the auth `User` model has no
`phone_number` column, so the ORM raises `FieldError` when the queryset is
built; `DAL.filter` catches every exception and returns
`model.objects.none()`.  The call therefore always yields an empty
queryset, whatever the store holds. -/
def filterUsersByPhone (_db : DB) (_phone : String) : List User := []

/-- The identification-triple conflict probe of `register_user`:
`dal.filter(Civilian, ...)` or `dal.filter(SupportProvider, ...)` on
`(identification_number, country_of_issue_id, id_type)`.  Administrator
profiles are not consulted by the code. -/
def idTripleExists (db : DB) (idNum idType : String) (countryOfIssueId : Nat) : Bool :=
  db.profiles.any (fun p =>
    (p.role = Role.civilian || p.role = Role.supportProvider) &&
    p.identificationNumber = idNum && p.idType = idType &&
    p.countryOfIssueId = countryOfIssueId)

/-- The argument record of `AnonymousFacade.register_user`.
`intentionsIds` models the optional `extra_fields['intentions_ids']`
(`some` when the key is present), `supportProviderCategoriesIds` the
optional `support_provider_categories_ids` argument. -/
structure RegisterRequest where
  userType : String
  username : String
  email : String
  password : String
  identificationNumber : String
  idType : String
  countryOfIssueId : Nat
  languagesSpokenIds : List Nat
  cityId : Nat
  countryId : Nat
  phoneNumber : String
  termsAccepted : Bool
  address : String
  gender : Option String
  lookingToEarn : Option Bool
  supportProviderCategoriesIds : Option (List Nat)
  intentionsIds : Option (List Nat)
  sourceIp : String
deriving Repr, DecidableEq

/-- Static reference data: the `Country`, `City`, `Language`,
`Intentions` and `SupportProviderCategory` rows available to
`dal.get_by_id` / `dal.filter(..., id__in=...)`. -/
structure RefData where
  countryIds : List Nat
  cityIds : List Nat
  languageIds : List Nat
  intentionIds : List Nat
  categoryIds : List Nat
deriving Repr, DecidableEq

/-- Whether the backing store accepts the two writes of `register_user`
that can reach it: the identity insert and the activity-row insert.  A
`false` models the store raising (for instance the uniqueness race the
advisory checks cannot close); `DAL.create` swallows such an exception
and returns `None`.  The profile insert has no oracle bit: it fails on
every call before reaching the store, because `Civilian.objects.create`
(resp. `SupportProvider.objects.create`) raises `TypeError` on the
`languages_spoken` many-to-many keyword, and `DAL.create` swallows that
too. -/
structure StoreOracle where
  userCreateOk : Bool
  activityCreateOk : Bool
deriving Repr, DecidableEq

/-- Outcome of `register_user` as seen by the caller. -/
inductive RegisterOutcome where
  /-- `ValidationError` carrying the field-to-reason errors dict. -/
  | conflict (fields : List String)
  /-- `ValidationError` carrying a bare message string. -/
  | validationMessage (msg : String)
  /-- The blanket `except Exception` re-raise: an opaque internal failure. -/
  | internalError
  /-- Normal return of the method (the created user's username, or `none`
  when the method returns `None`). -/
  | success (user : Option String)
deriving Repr, DecidableEq

/-- True exactly on the field-conflict shape. -/
def RegisterOutcome.isConflict : RegisterOutcome → Bool
  | .conflict _ => true
  | _ => false

/-- The advisory conflict checks at the top of `register_user`, in source
order: terms, username, email, phone (via the always-empty
`filterUsersByPhone`), identification triple.  Returns the keys of the
errors dict. -/
def conflictFields (db : DB) (r : RegisterRequest) : List String :=
  (if !r.termsAccepted then ["terms_accepted"] else []) ++
  (if (getUserByUsername db r.username).isSome then ["username"] else []) ++
  (if (getUserByEmail db r.email).isSome then ["email"] else []) ++
  (if !(filterUsersByPhone db r.phoneNumber).isEmpty then ["phone_number"] else []) ++
  (if idTripleExists db r.identificationNumber r.idType r.countryOfIssueId then
    ["identification_number"] else [])

/-- Tail of `register_user`: `if user: dal.create(UserActivity, ...)` —
the activity write is skipped when the identity create returned `None`, and
a store rejection of the activity write is swallowed by `DAL.create`; the
method then returns `user` (the username, or `None`). -/
def finishRegistration (db : DB) (st : StoreOracle) (r : RegisterRequest)
    (userOpt : Option User) : RegisterOutcome × DB :=
  let db' :=
    if userOpt.isSome && st.activityCreateOk then
      { db with activities :=
          db.activities ++ [⟨r.username, "account_creation", r.sourceIp⟩] }
    else db
  (RegisterOutcome.success (userOpt.map (fun u => u.username)), db')

/-- `AnonymousFacade.register_user`.  The whole body runs inside
`transaction.atomic()`; a `ValidationError` or the blanket re-raised
`Exception` aborts the block, so those outcomes return the original `db`.
`DAL.create` failures are swallowed and the flow continues with `None`.
The profile step `dal.create(Civilian, **civilian_data)` (resp.
`SupportProvider`) always yields `None`: `civilian_data` contains the
`languages_spoken` queryset, and Django raises `TypeError` when a
many-to-many value is passed to `objects.create`, an exception
`DAL.create` swallows — so no profile row is ever written by this
facade.  When `intentions_ids` is present (resp. a nonempty categories
list), the subsequent `civilian.intentions.set(...)` runs on `None`,
raises `AttributeError`, lands in the blanket handler and rolls the
block back; otherwise the block commits whatever identity and activity
rows were accepted. -/
def registerUser (db : DB) (ref : RefData) (st : StoreOracle) (r : RegisterRequest) :
    RegisterOutcome × DB :=
  let errs := conflictFields db r
  if errs ≠ [] then
    (RegisterOutcome.conflict errs, db)
  else
    let userOpt : Option User :=
      if st.userCreateOk then
        some ⟨r.username, r.email, hashPassword r.password, true⟩
      else none
    let db1 : DB :=
      match userOpt with
      | some u => { db with users := db.users ++ [u] }
      | none => db
    if !(ref.countryIds.contains r.countryOfIssueId && ref.cityIds.contains r.cityId &&
        ref.countryIds.contains r.countryId) then
      (RegisterOutcome.validationMessage "Invalid country, city, or language information.", db)
    else if r.userType = "civilian" then
      match r.intentionsIds with
      | some _ => (RegisterOutcome.internalError, db)
      | none => finishRegistration db1 st r userOpt
    else if r.userType = "support_provider" then
      match r.supportProviderCategoriesIds with
      | some (_ :: _) => (RegisterOutcome.internalError, db)
      | _ => finishRegistration db1 st r userOpt
    else
      (RegisterOutcome.conflict ["user_type"], db)

/-! Login and the suspicious-activity defense. -/

/-- `django-axes` `AccessAttempt` row: attempted username, source address
and the failure count accumulated for that pair. -/
structure AccessAttempt where
  username : String
  ipAddress : String
  failuresSinceStart : Nat
deriving Repr, DecidableEq

/-- Environment read by `alert_for_suspicious_activity`: the
`AccessAttempt` ledger and the `Administrator` group (`none` when
`dal.get_by_field(Group, name='Administrator')` finds nothing; otherwise
the member emails). -/
structure AlertEnv where
  attempts : List AccessAttempt
  adminGroup : Option (List String)
deriving Repr, DecidableEq

/-- `SUSPICIOUS_ATTEMPT_THRESHOLD` in `Rachel/utils.py`. -/
def SUSPICIOUS_ATTEMPT_THRESHOLD : Nat := 5

/-- The counting loop of `alert_for_suspicious_activity`: over the
attempts filtered to the request's address, sum `failures_since_start`,
adding one to every row whose username equals the current username; if no
row matched the username, add the single in-flight failure afterwards. -/
def totalFailures (attempts : List AccessAttempt) (ip username : String) : Nat :=
  let fromIp := attempts.filter (fun a => a.ipAddress = ip)
  let base := (fromIp.map (fun a =>
    a.failuresSinceStart + (if a.username = username then 1 else 0))).sum
  if fromIp.any (fun a => a.username = username) then base else base + 1

/-- `alert_for_suspicious_activity(username, request)`.  Returns whether
the administrator alert email was sent.  When the request carries no
resolvable address (`requestIp = none`), `get_client_ip_address` raises,
the blanket `except` swallows it, and the function does nothing.  When the
total reaches the threshold, the email goes out only if the
`Administrator` group exists. -/
def alertForSuspiciousActivity (env : AlertEnv) (username : String)
    (requestIp : Option String) : Bool :=
  match requestIp with
  | none => false
  | some ip =>
    if SUSPICIOUS_ATTEMPT_THRESHOLD ≤ totalFailures env.attempts ip username then
      match env.adminGroup with
      | some _ => true
      | none => false
    else false

/-- The `user_login_failed` signal receiver `on_user_login_failed` in
`Rachel/signals.py`.  The username defaults to `"unknown"` when the
credentials carry none; a `login_failed` activity row is recorded only
when a user row was found (the `"unknown"` default skips the lookup) and
the request object is present; `alert_for_suspicious_activity` is then
called unconditionally.  Returns the post-state and whether the alert
email was sent. -/
def onUserLoginFailed (db : DB) (env : AlertEnv) (credentials : Option String)
    (requestIp : Option String) : DB × Bool :=
  let username := credentials.getD "unknown"
  let userFound :=
    if username ≠ "unknown" then (getUserByUsername db username).isSome else false
  let db' :=
    match requestIp, userFound with
    | some ip, true =>
      { db with activities := db.activities ++ [⟨username, "login_failed", ip⟩] }
    | _, _ => db
  (db', alertForSuspiciousActivity env username requestIp)

/-- Django's verifier: `authenticate` succeeds when the stored hash is the
hash of the submitted password. -/
def checkPassword (u : User) (password : String) : Bool :=
  u.password = hashPassword password

/-- Outcome of `AnonymousFacade.login_user`. -/
inductive LoginOutcome where
  /-- `ValidationError("No such user exists.")`. -/
  | noSuchUser
  /-- `ValidationError("User inactive, please contact support ...")`. -/
  | inactiveUser
  /-- `ValidationError("Invalid username or password")`. -/
  | invalidCredentials
  /-- The auth token returned on success. -/
  | token
deriving Repr, DecidableEq

/-- Result of a `login_user` call: outcome, post-state, and how many times
`alert_for_suspicious_activity` ran during the call. -/
structure LoginEffects where
  outcome : LoginOutcome
  db : DB
  alertCalls : Nat
deriving Repr, DecidableEq

/-- `AnonymousFacade.login_user`.  Unknown username and inactive identity
both raise `ValidationError` before `authenticate` runs, so no activity is
recorded and the aggregation never fires.  On a wrong password,
`authenticate` fires `user_login_failed` (the receiver records one
`login_failed` row and calls the alert) and the facade's own else-branch
records a second `login_failed` row and calls the alert again.  On
success, the `user_logged_in` receiver and the facade each record a
`login` row. -/
def loginUser (db : DB) (username password ip : String) : LoginEffects :=
  match getUserByUsername db username with
  | none => ⟨LoginOutcome.noSuchUser, db, 0⟩
  | some u =>
    if !u.isActive then ⟨LoginOutcome.inactiveUser, db, 0⟩
    else if checkPassword u password then
      ⟨LoginOutcome.token,
        { db with activities := db.activities ++
            [⟨username, "login", ip⟩, ⟨username, "login", ip⟩] }, 0⟩
    else
      ⟨LoginOutcome.invalidCredentials,
        { db with activities := db.activities ++
            [⟨username, "login_failed", ip⟩, ⟨username, "login_failed", ip⟩] }, 2⟩

/-! The password-reset lifecycle. -/

/-- `can_request_password_reset` in `Rachel/utils.py`: eligible when no
`PasswordResetRequest` row exists, or when the counter is below
`MAX_ATTEMPTS = 5` and the token is unused.  No timestamp is consulted:
the stored `timestamp` field plays no part. -/
def canRequestPasswordReset (db : DB) (username : String) : Bool :=
  match db.resetRequests.filter (fun r => r.username = username) with
  | [r] => r.requestCount < 5 && !r.tokenUsed
  | _ => true

/-- Outcome of `AnonymousFacade.reset_password`. -/
inductive ResetPasswordOutcome where
  /-- The blanket handler's generic `Exception` re-raise. -/
  | genericError
  /-- The reset email went out and the method returned normally. -/
  | emailSent
deriving Repr, DecidableEq

/-- `AnonymousFacade.reset_password(request, email)`.  A missing user or a
failed `can_request_password_reset` check raises, caught by the blanket
handler and re-raised as a generic error (the request is denied).  The
allowed path calls `request_password_reset(user, request)` — but
`Rachel/utils.py` defines `request_password_reset(user)` with one
parameter, so the call raises `TypeError` before any state change and the
same blanket handler turns it into the generic error.  No path changes the
store. -/
def resetPassword (db : DB) (email : String) : ResetPasswordOutcome × DB :=
  match getUserByEmail db email with
  | none => (ResetPasswordOutcome.genericError, db)
  | some u =>
    if !canRequestPasswordReset db u.username then
      (ResetPasswordOutcome.genericError, db)
    else
      (ResetPasswordOutcome.genericError, db)

/-- `DAL.get_by_field(PasswordResetRequest, user=..., token=...)` as
called by `finalize_password_reset`: the `PasswordResetRequest` model has
no `token` column, so the ORM raises `FieldError` when building the query;
`get_by_field` catches every exception and returns `None`.  The lookup is
therefore `none` for every store and every token. -/
def getResetByUserAndToken (_db : DB) (_username _token : String) : Option ResetRecord :=
  none

/-- Outcome of `finalize_password_reset`. -/
inductive FinalizeOutcome where
  /-- `AttributeError` from `None.token_used`, uncaught by the handler
  (it only catches `DoesNotExist` and `ValidationError`). -/
  | attributeError
  /-- `ValidationError("This token has already been used.")`. -/
  | tokenAlreadyUsed
  /-- Password stored and token marked used. -/
  | resetDone
deriving Repr, DecidableEq

/-- Store the hashed new password on the user row. -/
def setUserPassword (db : DB) (username newHash : String) : DB :=
  { db with users := db.users.map (fun u =>
      if u.username = username then { u with password := newHash } else u) }

/-- Mark the user's reset record used. -/
def markTokenUsed (db : DB) (username : String) : DB :=
  { db with resetRequests := db.resetRequests.map (fun r =>
      if r.username = username then { r with tokenUsed := true } else r) }

/-- `finalize_password_reset(user, token, new_password)` in
`Rachel/utils.py`: look the record up by user and token (see
`getResetByUserAndToken`); a used token raises `ValidationError`;
otherwise hash and store the new password, then mark the token used.
Because the lookup always yields `None`, `reset_request.token_used`
raises `AttributeError` on every call and no branch below it is ever
reached. -/
def finalizePasswordReset (db : DB) (username token newPassword : String) :
    FinalizeOutcome × DB :=
  match getResetByUserAndToken db username token with
  | none => (FinalizeOutcome.attributeError, db)
  | some req =>
    if req.tokenUsed then (FinalizeOutcome.tokenAlreadyUsed, db)
    else
      let db' := markTokenUsed (setUserPassword db username (hashPassword newPassword)) username
      (FinalizeOutcome.resetDone, db')

/-! The lockout policy.

`Rachel/views.py` consults `FailedLoginAttempt.is_locked_out()`, but the
`FailedLoginAttempt` model itself is nowhere in the repository sources:
only this caller exists.  The definitions below are therefore modelled
from the spec, not translated from source code. -/

/-- Modelled from the spec: the per-address lockout record behind the
missing `FailedLoginAttempt` model — failure count and the
lockout-until timestamp for one source address (spec section 4.3 and the
LockoutState data model). -/
structure LockoutEntry where
  address : String
  failureCount : Nat
  lockedUntil : Option Nat
deriving Repr, DecidableEq

/-- Modelled from the spec: the lockout store, one entry per address. -/
structure LockoutState where
  entries : List LockoutEntry
deriving Repr, DecidableEq

/-- Modelled from the spec: the fixed threshold of 5 failures. -/
def lockoutThreshold : Nat := 5

/-- Modelled from the spec: the fixed 5-minute lockout, in seconds. -/
def lockoutDuration : Nat := 300

/-- The entry for an address, defaulting to a fresh zero-count unlocked
entry. -/
def getEntry (s : LockoutState) (addr : String) : LockoutEntry :=
  (s.entries.find? (fun e => e.address = addr)).getD ⟨addr, 0, none⟩

/-- Replace (or insert) the entry for `e.address`. -/
def setEntry (s : LockoutState) (e : LockoutEntry) : LockoutState :=
  ⟨e :: s.entries.filter (fun x => x.address ≠ e.address)⟩

/-- Modelled from the spec: `is_locked_out` — locked while `now` is
before the stored lockout-until timestamp, with no explicit unlock. -/
def isLockedOut (s : LockoutState) (addr : String) (now : Nat) : Bool :=
  match (getEntry s addr).lockedUntil with
  | some t => now < t
  | none => false

/-- Modelled from the spec: `on_failure(username, source_address)` —
increment the address's failure count (aggregation is per source address,
whatever the username); when the new count reaches the threshold, lock
for the fixed duration from now, never shrinking an existing window. -/
def onFailure (s : LockoutState) (_username addr : String) (now : Nat) : LockoutState :=
  let e := getEntry s addr
  let newCount := e.failureCount + 1
  let newLocked :=
    if lockoutThreshold ≤ newCount then
      some (max (e.lockedUntil.getD 0) (now + lockoutDuration))
    else e.lockedUntil
  setEntry s ⟨addr, newCount, newLocked⟩

/-! Concrete fixtures used by the claim theorems and witnesses. -/

/-- The empty store. -/
def emptyDB : DB := ⟨[], [], [], []⟩

/-- Reference data holding country 1, city 1, language 1, intention 1 and
category 1. -/
def refFixture : RefData := ⟨[1], [1], [1], [1], [1]⟩

/-- A store that accepts both reachable writes. -/
def allOkStore : StoreOracle := ⟨true, true⟩

/-- A civilian registration payload with no conflicts against `emptyDB`
and no `intentions_ids` key in the extra fields. -/
def aliceRequest : RegisterRequest :=
  { userType := "civilian", username := "alice", email := "alice@example.com",
    password := "S3cret-pass", identificationNumber := "ID-100", idType := "passport",
    countryOfIssueId := 1, languagesSpokenIds := [1], cityId := 1, countryId := 1,
    phoneNumber := "+15551234567", termsAccepted := true, address := "1 Main St",
    gender := some "female", lookingToEarn := none,
    supportProviderCategoriesIds := none, intentionsIds := none,
    sourceIp := "203.0.113.5" }

/-- An existing identity for the phone-conflict scenario. -/
def carolUser : User := ⟨"carol", "carol@example.com", hashPassword "pw-carol", true⟩

/-- Carol's civilian profile, holding the phone number that a later
registration reuses. -/
def carolProfile : Profile :=
  { role := Role.civilian, username := "carol", identificationNumber := "ID-200",
    idType := "passport", countryOfIssueId := 1, cityId := 1, countryId := 1,
    phoneNumber := "+15551234567", termsAccepted := true, address := "2 Oak Ave",
    gender := some "female", lookingToEarn := none, languageIds := [1],
    intentionIds := [], categoryIds := [] }

/-- A store already holding Carol's identity and profile. -/
def dbWithCarol : DB := ⟨[carolUser], [carolProfile], [], []⟩

/-- A registration that reuses Carol's phone number with a fresh
username, email and identification triple. -/
def bobRequest : RegisterRequest :=
  { aliceRequest with
    username := "bob"
    email := "bob@example.com"
    identificationNumber := "ID-300"
    gender := some "male" }

/-- An identity with a password-reset record on file. -/
def daveUser : User := ⟨"dave", "dave@example.com", hashPassword "pw-dave", true⟩

/-- Dave's reset record: one prior request, token not used. -/
def daveReset : ResetRecord := ⟨"dave", 100, false, 1⟩

/-- A store holding Dave and his reset record. -/
def dbWithDave : DB := ⟨[daveUser], [], [], [daveReset]⟩

/-- An `AccessAttempt` ledger with failures from one address under two
usernames. -/
def attemptLedgerFixture : List AccessAttempt :=
  [⟨"alice", "203.0.113.5", 3⟩, ⟨"bob", "203.0.113.5", 4⟩]

/-- An alert environment with that ledger and an existing Administrator
group. -/
def alertEnvFixture : AlertEnv := ⟨attemptLedgerFixture, some ["admin@example.com"]⟩

/-- A store holding only Alice's identity. -/
def dbWithAlice : DB := ⟨[⟨"alice", "alice@example.com", hashPassword "pw", true⟩], [], [], []⟩

/-- An identity that has exhausted the reset quota. -/
def erinUser : User := ⟨"erin", "erin@example.com", hashPassword "pw-erin", true⟩

/-- Erin's reset record: five prior requests, token not used, issued long
ago (the timestamp plays no part). -/
def erinReset : ResetRecord := ⟨"erin", 12345, false, 5⟩

/-- A store holding Erin and her exhausted reset record. -/
def dbWithErin : DB := ⟨[erinUser], [], [], [erinReset]⟩

/-- An identity whose active flag is cleared. -/
def frankUser : User := ⟨"frank", "frank@example.com", hashPassword "pw-frank", false⟩

/-- A store holding only the inactive Frank. -/
def dbWithFrank : DB := ⟨[frankUser], [], [], []⟩

/-- A fresh lockout store. -/
def emptyLockout : LockoutState := ⟨[]⟩

end Rachel

namespace Rachel

/-! Theorems settling the claims. -/

/-- Claim C1 (failing input): registration is not all-or-nothing.  With a
clean store and valid reference data, the profile-creation step of a
civilian registration fails (`objects.create` raises on the
`languages_spoken` many-to-many keyword and `DAL.create` swallows the
error into `None`), yet without an `intentions_ids` key the atomic block
runs to the end and commits: the call reports success, a subsequent
lookup of the attempted username finds the dangling identity plus its
`account_creation` activity row, and no profile row exists. -/
theorem register_commits_dangling_identity_on_profile_store_failure :
    (registerUser emptyDB refFixture allOkStore aliceRequest).1
        = RegisterOutcome.success (some "alice") ∧
    (getUserByUsername
        (registerUser emptyDB refFixture allOkStore aliceRequest).2
        "alice").isSome = true ∧
    (registerUser emptyDB refFixture allOkStore aliceRequest).2.profiles
        = [] ∧
    (registerUser emptyDB refFixture allOkStore aliceRequest).2.activities
        = [⟨"alice", "account_creation", "203.0.113.5"⟩] := by
  refine ⟨rfl, rfl, rfl, rfl⟩

/-- Claim C2 (failing input): a successful `register_user` call creates
the identity with Django's default `is_active = True` (the facade never
clears the flag), so the claimed inactive-until-approval policy does not
hold on this path: an immediate login with the registered password
succeeds. -/
theorem register_creates_active_identity_and_login_succeeds :
    (registerUser emptyDB refFixture allOkStore aliceRequest).1
        = RegisterOutcome.success (some "alice") ∧
    (registerUser emptyDB refFixture allOkStore aliceRequest).2.users.length = 1 ∧
    ((registerUser emptyDB refFixture allOkStore aliceRequest).2.users.all
        (fun u => u.isActive)) = true ∧
    (loginUser (registerUser emptyDB refFixture allOkStore aliceRequest).2
        "alice" "S3cret-pass" "203.0.113.5").outcome = LoginOutcome.token := by
  refine ⟨rfl, rfl, rfl, rfl⟩

/-- Claim C4 (failing input): the very first `finalize_password_reset`
call with an issued record on file does not succeed — the lookup filters
on the nonexistent `token` column, `get_by_field` swallows the
`FieldError` and returns `None`, and `None.token_used` raises
`AttributeError`; the store (password and reset record) is unchanged, and
a repeat call behaves identically. -/
theorem finalize_reset_raises_attribute_error_on_first_use :
    finalizePasswordReset dbWithDave "dave" "tok-123" "N3w-pass"
        = (FinalizeOutcome.attributeError, dbWithDave) ∧
    finalizePasswordReset dbWithDave "dave" "tok-123" "Other-pass"
        = (FinalizeOutcome.attributeError, dbWithDave) := by
  refine ⟨rfl, rfl⟩

/-- Claim C5 (failing input): registering with a phone number already
held by Carol's civilian profile raises no conflict at all — the check
filters the `User` model, which has no `phone_number` column, so
`DAL.filter` swallows the `FieldError` and yields an empty queryset —
and instead of persisting nothing, the call reports success and commits
the new identity (only the identity: the profile insert always fails on
the many-to-many keyword, itself the C1 defect). -/
theorem register_ignores_duplicate_phone_number :
    conflictFields dbWithCarol bobRequest = [] ∧
    (registerUser dbWithCarol refFixture allOkStore bobRequest).1
        = RegisterOutcome.success (some "bob") ∧
    (getUserByUsername (registerUser dbWithCarol refFixture allOkStore bobRequest).2
        "bob").isSome = true := by
  refine ⟨rfl, rfl, rfl⟩

/-- Claim C7 (counterexample): when the backing store itself rejects the
identity write inside the atomic unit (the uniqueness race), the caller
does not receive the field-to-reason conflict shape: `DAL.create`
swallows the storage error, the flow continues with `None`, and the call
returns a success-shaped outcome with no user and an unchanged store. -/
theorem storage_uniqueness_race_not_reported_as_conflict :
    registerUser emptyDB refFixture ⟨false, true⟩ aliceRequest
        = (RegisterOutcome.success none, emptyDB) ∧
    (registerUser emptyDB refFixture ⟨false, true⟩ aliceRequest).1.isConflict
        = false := by
  refine ⟨rfl, rfl⟩

/-- Claim C9 (counterexample): a failed login whose source address cannot
be determined (missing request context) is not counted anywhere — with a
populated ledger, an existing Administrator group and a known username,
the handler leaves the store untouched and sends no alert; no "unknown"
address bucket receives the failure. -/
theorem missing_address_failure_counts_nothing :
    onUserLoginFailed dbWithAlice alertEnvFixture (some "alice") none
        = (dbWithAlice, false) ∧
    (onUserLoginFailed dbWithAlice alertEnvFixture (some "alice") none).1.activities
        = [] := by
  refine ⟨rfl, rfl⟩

/-- Claim C9 (amended): when the source address cannot be determined
(missing request context), the failure handler records no activity row in
any bucket and the suspicious-activity routine aborts through its blanket
exception handler without counting or alerting; only the missing
*username* is bucketed as `"unknown"`, and counting is silently
skipped. -/
theorem missing_address_skips_counting (db : DB) (env : AlertEnv)
    (credentials : Option String) :
    onUserLoginFailed db env credentials none = (db, false) := by
  simp [onUserLoginFailed, alertForSuspiciousActivity]

/-- Claim C8: once the reset counter of an identity has reached the
maximum of 5, `can_request_password_reset` is false and a further
`reset_password` call is denied with the store unchanged, whatever the
record's timestamp (no time value is consulted, so no elapsed time can
re-enable the request). -/
theorem reset_quota_denies_after_max_requests (db : DB) (email : String)
    (u : User) (r : ResetRecord)
    (hu : getUserByEmail db email = some u)
    (hr : db.resetRequests.filter (fun x => x.username = u.username) = [r])
    (hc : 5 ≤ r.requestCount) :
    canRequestPasswordReset db u.username = false ∧
    resetPassword db email = (ResetPasswordOutcome.genericError, db) := by
  have hnot : ¬ (r.requestCount < 5) := Nat.not_lt.mpr hc
  have hcan : canRequestPasswordReset db u.username = false := by
    unfold canRequestPasswordReset
    rw [hr]
    simp [hnot]
  refine ⟨hcan, ?_⟩
  unfold resetPassword
  rw [hu]
  simp

/-- Claim C8 witness: Erin has five requests on file; her check is false
and her reset request is denied. -/
theorem reset_quota_witness :
    canRequestPasswordReset dbWithErin "erin" = false ∧
    resetPassword dbWithErin "erin@example.com"
      = (ResetPasswordOutcome.genericError, dbWithErin) :=
  reset_quota_denies_after_max_requests dbWithErin "erin@example.com" erinUser erinReset
    rfl rfl (by decide)

/-- Claim C10: a login attempt for a username with no identity row, or
for an identity whose active flag is false, raises a validation error
before any password verification: the store is unchanged (in particular
no `login_failed` activity row is written) and
`alert_for_suspicious_activity` is never invoked, so the attempt adds
nothing to the per-address aggregation. -/
theorem login_unknown_or_inactive_has_no_side_effects (db : DB)
    (username password ip : String)
    (h : getUserByUsername db username = none ∨
      ∃ u, getUserByUsername db username = some u ∧ u.isActive = false) :
    (loginUser db username password ip).db = db ∧
    (loginUser db username password ip).alertCalls = 0 ∧
    ((loginUser db username password ip).outcome = LoginOutcome.noSuchUser ∨
      (loginUser db username password ip).outcome = LoginOutcome.inactiveUser) := by
  rcases h with h | ⟨u, hu, hin⟩
  · simp [loginUser, h]
  · simp [loginUser, hu, hin]

/-- Claim C10 witness: logging in as the inactive Frank with his correct
password changes nothing and triggers no aggregation. -/
theorem login_inactive_witness :
    (loginUser dbWithFrank "frank" "pw-frank" "198.51.100.7").db = dbWithFrank ∧
    (loginUser dbWithFrank "frank" "pw-frank" "198.51.100.7").alertCalls = 0 ∧
    ((loginUser dbWithFrank "frank" "pw-frank" "198.51.100.7").outcome
        = LoginOutcome.noSuchUser ∨
      (loginUser dbWithFrank "frank" "pw-frank" "198.51.100.7").outcome
        = LoginOutcome.inactiveUser) :=
  login_unknown_or_inactive_has_no_side_effects dbWithFrank "frank" "pw-frank" "198.51.100.7"
    (Or.inr ⟨frankUser, rfl, rfl⟩)

/-- Summing `failures + (1 if the username matches)` over a ledger slice
splits into the failure sum plus the number of matching rows. -/
theorem sum_map_failures_add_indicator (l : List AccessAttempt) (username : String) :
    (l.map (fun a => a.failuresSinceStart + (if a.username = username then 1 else 0))).sum
      = (l.map (fun a => a.failuresSinceStart)).sum
        + l.countP (fun a => a.username = username) := by
  induction l with
  | nil => simp
  | cons a t ih =>
    simp only [List.map_cons, List.sum_cons, List.countP_cons, ih]
    by_cases h : a.username = username <;> simp [h] <;> omega

/-- When the slice of the ledger at the request's address holds at most
one row for the current username (the per-pair `AccessAttempt` shape),
the counting loop of `alert_for_suspicious_activity` computes exactly the
failure sum over the address plus the one in-flight failure. -/
theorem totalFailures_eq_sum_plus_one (attempts : List AccessAttempt) (ip username : String)
    (huniq : (attempts.filter (fun a => a.ipAddress = ip)).countP
        (fun a => a.username = username) ≤ 1) :
    totalFailures attempts ip username
      = ((attempts.filter (fun a => a.ipAddress = ip)).map
          (fun a => a.failuresSinceStart)).sum + 1 := by
  simp only [totalFailures]
  rw [sum_map_failures_add_indicator]
  by_cases hany : (attempts.filter (fun a => a.ipAddress = ip)).any
      (fun a => a.username = username) = true
  · have hpos : 0 < (attempts.filter (fun a => a.ipAddress = ip)).countP
        (fun a => a.username = username) := by
      rw [List.countP_pos_iff]
      rw [List.any_eq_true] at hany
      simpa using hany
    have h1 : (attempts.filter (fun a => a.ipAddress = ip)).countP
        (fun a => a.username = username) = 1 := le_antisymm huniq hpos
    simp [hany, h1]
  · have h0 : (attempts.filter (fun a => a.ipAddress = ip)).countP
        (fun a => a.username = username) = 0 := by
      rw [List.countP_eq_zero]
      intro a ha
      rw [List.any_eq_true] at hany
      push_neg at hany
      simpa using hany a ha
    simp [hany, h0]

/-- Claim C6: with a resolvable source address, an existing Administrator
group, and at most one ledger row for the current username at that
address, the administrator alert email is sent if and only if the total
failures from that address — summed over all usernames recorded there,
plus the one in-flight failure for the current username — have reached
the threshold of 5.  The decision reads only the address slice of the
ledger, never a single username's count alone. -/
theorem alert_iff_total_address_failures_reach_threshold
    (env : AlertEnv) (username ip : String) (emails : List String)
    (hadmin : env.adminGroup = some emails)
    (huniq : (env.attempts.filter (fun a => a.ipAddress = ip)).countP
        (fun a => a.username = username) ≤ 1) :
    alertForSuspiciousActivity env username (some ip) = true ↔
      5 ≤ ((env.attempts.filter (fun a => a.ipAddress = ip)).map
          (fun a => a.failuresSinceStart)).sum + 1 := by
  simp only [alertForSuspiciousActivity]
  rw [totalFailures_eq_sum_plus_one env.attempts ip username huniq, hadmin]
  by_cases h : 5 ≤ ((env.attempts.filter (fun a => a.ipAddress = ip)).map
      (fun a => a.failuresSinceStart)).sum + 1 <;>
    simp [SUSPICIOUS_ATTEMPT_THRESHOLD, h]

/-- Claim C6 witness: four prior failures from the address under a
different username plus the in-flight failure reach the threshold, and
the alert goes out. -/
theorem alert_threshold_witness :
    alertForSuspiciousActivity ⟨[⟨"bob", "198.51.100.9", 4⟩], some ["admin@example.com"]⟩
      "alice" (some "198.51.100.9") = true := by
  have h := alert_iff_total_address_failures_reach_threshold
    ⟨[⟨"bob", "198.51.100.9", 4⟩], some ["admin@example.com"]⟩ "alice" "198.51.100.9"
    ["admin@example.com"] rfl (by decide)
  exact h.mpr (by decide)

/-- Replacing an address's entry makes it the one `getEntry` returns. -/
theorem getEntry_setEntry_self (s : LockoutState) (e : LockoutEntry) :
    getEntry (setEntry s e) e.address = e := by
  unfold getEntry setEntry
  rw [List.find?_cons_of_pos]
  · rfl
  · simp

/-- One `on_failure` step, read back at the same address: the count goes
up by one and the lock timestamp is set once the threshold is reached. -/
theorem getEntry_onFailure_self (s : LockoutState) (u addr : String) (t : Nat) :
    getEntry (onFailure s u addr t) addr =
      ⟨addr, (getEntry s addr).failureCount + 1,
        if lockoutThreshold ≤ (getEntry s addr).failureCount + 1 then
          some (max ((getEntry s addr).lockedUntil.getD 0) (t + lockoutDuration))
        else (getEntry s addr).lockedUntil⟩ := by
  simp only [onFailure]
  exact getEntry_setEntry_self s _

/-- Claim C3 (modelled from the spec, the `FailedLoginAttempt` model
being absent from the sources): starting from a state with no entry for
the address, the 5th failed attempt from that address — under any mix of
usernames and at any times — makes `is_locked_out` true for that address
throughout the fixed 5-minute window from the 5th failure, while after
the 4th failed attempt `is_locked_out` is still false at every time. -/
theorem fifth_failure_locks_fourth_does_not
    (s0 : LockoutState) (addr u1 u2 u3 u4 u5 : String) (t1 t2 t3 t4 t5 : Nat)
    (h0 : s0.entries.find? (fun e => e.address = addr) = none) :
    (∀ t, isLockedOut
        (onFailure (onFailure (onFailure (onFailure s0 u1 addr t1) u2 addr t2) u3 addr t3)
          u4 addr t4) addr t = false) ∧
    (∀ t, t5 ≤ t → t < t5 + lockoutDuration →
      isLockedOut
        (onFailure (onFailure (onFailure (onFailure (onFailure s0 u1 addr t1) u2 addr t2)
          u3 addr t3) u4 addr t4) u5 addr t5) addr t = true) := by
  have e0 : getEntry s0 addr = ⟨addr, 0, none⟩ := by
    simp [getEntry, h0]
  have e1 : getEntry (onFailure s0 u1 addr t1) addr = ⟨addr, 1, none⟩ := by
    rw [getEntry_onFailure_self, e0]
    simp [lockoutThreshold]
  have e2 : getEntry (onFailure (onFailure s0 u1 addr t1) u2 addr t2) addr
      = ⟨addr, 2, none⟩ := by
    rw [getEntry_onFailure_self, e1]
    simp [lockoutThreshold]
  have e3 : getEntry (onFailure (onFailure (onFailure s0 u1 addr t1) u2 addr t2)
      u3 addr t3) addr = ⟨addr, 3, none⟩ := by
    rw [getEntry_onFailure_self, e2]
    simp [lockoutThreshold]
  have e4 : getEntry (onFailure (onFailure (onFailure (onFailure s0 u1 addr t1)
      u2 addr t2) u3 addr t3) u4 addr t4) addr = ⟨addr, 4, none⟩ := by
    rw [getEntry_onFailure_self, e3]
    simp [lockoutThreshold]
  have e5 : getEntry (onFailure (onFailure (onFailure (onFailure (onFailure s0 u1 addr t1)
      u2 addr t2) u3 addr t3) u4 addr t4) u5 addr t5) addr
      = ⟨addr, 5, some (t5 + lockoutDuration)⟩ := by
    rw [getEntry_onFailure_self, e4]
    simp [lockoutThreshold]
  refine ⟨fun t => ?_, fun t _ ht2 => ?_⟩
  · simp [isLockedOut, e4]
  · simp [isLockedOut, e5]
    exact ht2

/-- Claim C3 witness: four failures from one address under four usernames
leave it unlocked; the fifth, under a fifth username, locks it at once. -/
theorem lockout_threshold_witness :
    isLockedOut (onFailure (onFailure (onFailure (onFailure emptyLockout "a" "1.1.1.1" 0)
      "b" "1.1.1.1" 1) "c" "1.1.1.1" 2) "d" "1.1.1.1" 3) "1.1.1.1" 100 = false ∧
    isLockedOut (onFailure (onFailure (onFailure (onFailure (onFailure emptyLockout
      "a" "1.1.1.1" 0) "b" "1.1.1.1" 1) "c" "1.1.1.1" 2) "d" "1.1.1.1" 3)
      "e" "1.1.1.1" 4) "1.1.1.1" 4 = true := by
  have h := fifth_failure_locks_fourth_does_not emptyLockout "1.1.1.1"
    "a" "b" "c" "d" "e" 0 1 2 3 4 rfl
  exact ⟨h.1 100, h.2 4 (by decide) (by decide)⟩

/-- Claim C7 (amended): when the backing store rejects the identity write
with a uniqueness violation inside the atomic unit, `DAL.create` swallows
the storage error, so no storage-layer vocabulary reaches the caller —
but neither does the field-to-reason conflict shape of the advisory step:
for either role, the caller sees a success-shaped outcome with no user
(when no relation ids accompany the payload) or the opaque internal
error (when they do, via the `.set` call raising on `None`), never a
conflict, and the store is left unchanged. -/
theorem storage_rejection_swallowed_never_conflict_shaped
    (db : DB) (ref : RefData) (st : StoreOracle) (r : RegisterRequest)
    (hconf : conflictFields db r = [])
    (href : (ref.countryIds.contains r.countryOfIssueId && ref.cityIds.contains r.cityId &&
        ref.countryIds.contains r.countryId) = true)
    (htype : r.userType = "civilian" ∨ r.userType = "support_provider")
    (hreject : st.userCreateOk = false) :
    ((registerUser db ref st r).1 = RegisterOutcome.success none ∨
      (registerUser db ref st r).1 = RegisterOutcome.internalError) ∧
    (registerUser db ref st r).1.isConflict = false ∧
    (registerUser db ref st r).2 = db := by
  simp only [Bool.and_eq_true] at href
  obtain ⟨⟨h1, h2⟩, h3⟩ := href
  simp at h1 h2 h3
  have hres : registerUser db ref st r = (RegisterOutcome.success none, db) ∨
      registerUser db ref st r = (RegisterOutcome.internalError, db) := by
    rcases htype with htype | htype
    · cases hint : r.intentionsIds with
      | none =>
        left
        simp [registerUser, hconf, h1, h2, h3, htype, hint, hreject, finishRegistration]
      | some ids =>
        right
        simp [registerUser, hconf, h1, h2, h3, htype, hint, hreject]
    · cases hcat : r.supportProviderCategoriesIds with
      | none =>
        left
        simp [registerUser, hconf, h1, h2, h3, htype, hcat, hreject, finishRegistration]
      | some l =>
        cases l with
        | nil =>
          left
          simp [registerUser, hconf, h1, h2, h3, htype, hcat, hreject, finishRegistration]
        | cons c cs =>
          right
          simp [registerUser, hconf, h1, h2, h3, htype, hcat, hreject]
  rcases hres with h | h <;> simp [h, RegisterOutcome.isConflict]

/-- Claim C7 amended-claim witness: the concrete race on Alice's
registration (no relation ids supplied) yields the success-shaped bare
outcome, not a conflict, over an untouched store. -/
theorem storage_rejection_witness :
    ((registerUser emptyDB refFixture ⟨false, true⟩ aliceRequest).1
        = RegisterOutcome.success none ∨
      (registerUser emptyDB refFixture ⟨false, true⟩ aliceRequest).1
        = RegisterOutcome.internalError) ∧
    (registerUser emptyDB refFixture ⟨false, true⟩ aliceRequest).1.isConflict = false ∧
    (registerUser emptyDB refFixture ⟨false, true⟩ aliceRequest).2 = emptyDB :=
  storage_rejection_swallowed_never_conflict_shaped emptyDB refFixture
    ⟨false, true⟩ aliceRequest rfl rfl (Or.inl rfl) rfl

end Rachel
